import Mathlib

/-!
Shallow embedding of the overlay and composition-layer engine of xrizer
(src/src/overlay.rs) together with proofs about the frozen claims.

Modelling conventions:
- f32 values are modelled by an arbitrary linear ordered field K (instantiated
  with the rationals for concrete evaluation).  The two irrational constants of
  the source, PI and FRAC_1_SQRT_2, and the quaternion normalisation routine
  (which needs a square root) are passed in as an uninterpreted record of
  constants, RtConsts.
- SlotMap with its generation-checked keys is modelled by an association list
  of Nat keys issued from a fresh counter (handles are never reused, matching
  the index+generation scheme); iteration order of the model list is the
  enumeration order of the builder.
- HashMap is modelled by an association list whose insert replaces the key.
- Rust panics (unwrap on a poisoned invariant, unreachable, the panic calls in
  the source) are modelled by Except.error / Option.none.
- Raw out-pointers are modelled by returning the written value; the modelled
  calls correspond to the non-null-pointer paths except where a null check is
  part of the claim.
-/

namespace Xrizer

/-- The set of graphics APIs a SupportedBackend can be (supported_apis_enum);
only the tag matters for the embedded claims. -/
inductive GraphicsApi
  | vulkan
  | opengl
  | d3d11
deriving DecidableEq, Repr

/-- xr::Extent2Di. -/
structure Extent2Di where
  w : Int
  h : Int
deriving DecidableEq, Repr

/-- xr::Rect2Di (offset components are always written as 0 by the source). -/
structure Rect2Di where
  extent : Extent2Di
  offsetX : Int
  offsetY : Int
deriving DecidableEq, Repr

/-- xr::Vector3f over the scalar field K. -/
structure Vector3f (K : Type) where
  x : K
  y : K
  z : K
deriving DecidableEq, Repr

/-- xr::Quaternionf over the scalar field K, components (x, y, z, w). -/
structure Quaternionf (K : Type) where
  x : K
  y : K
  z : K
  w : K
deriving DecidableEq, Repr

/-- xr::Posef. -/
structure Posef (K : Type) where
  position : Vector3f K
  orientation : Quaternionf K
deriving DecidableEq, Repr

/-- Quaternionf::IDENTITY. -/
def identityQuat (K : Type) [LinearOrderedField K] : Quaternionf K :=
  { x := 0, y := 0, z := 0, w := 1 }

/-- glam vector cross product, used by Quat::mul_vec3. -/
def cross {K : Type} [LinearOrderedField K] (a b : Vector3f K) : Vector3f K :=
  { x := a.y * b.z - a.z * b.y
    y := a.z * b.x - a.x * b.z
    z := a.x * b.y - a.y * b.x }

/-- Componentwise vector addition. -/
def vadd {K : Type} [LinearOrderedField K] (a b : Vector3f K) : Vector3f K :=
  { x := a.x + b.x, y := a.y + b.y, z := a.z + b.z }

/-- Scaling of a vector by a scalar. -/
def vscale {K : Type} [LinearOrderedField K] (c : K) (a : Vector3f K) : Vector3f K :=
  { x := c * a.x, y := c * a.y, z := c * a.z }

/-- glam Quat::mul_vec3 (rotation of a vector by a quaternion):
t = 2 * cross(q.xyz, v); result = v + q.w * t + cross(q.xyz, t). -/
def mulVec3 {K : Type} [LinearOrderedField K] (q : Quaternionf K) (v : Vector3f K) :
    Vector3f K :=
  let qv : Vector3f K := { x := q.x, y := q.y, z := q.z }
  let t := vscale 2 (cross qv v)
  vadd (vadd v (vscale q.w t)) (cross qv t)

/-- vr::EVROverlayError (the variants the modelled code returns). -/
inductive EVROverlayError
  | None
  | InvalidParameter
  | UnknownOverlay
  | RequestFailed
deriving DecidableEq, Repr

/-- vr::ETrackingUniverseOrigin. -/
inductive TrackingUniverseOrigin
  | Seated
  | Standing
  | RawAndUncalibrated
deriving DecidableEq, Repr

/-- vr::VRTextureBounds_t. -/
structure VRTextureBounds (K : Type) where
  uMin : K
  vMin : K
  uMax : K
  vMax : K
deriving DecidableEq, Repr

/-- vr::Texture_t as far as the model needs it: its declared graphics API
(eType) and the pixel extent that copy_overlay_to_swapchain reports for it. -/
structure Texture (K : Type) where
  api : GraphicsApi
  extent : Extent2Di
deriving DecidableEq, Repr

/-- The runtime constants and runtime-provided functions the embedding leaves
uninterpreted: the f32 approximations of PI and FRAC_1_SQRT_2, and glam
quaternion normalisation (which requires a square root, not available in an
abstract ordered field). -/
structure RtConsts (K : Type) where
  pi : K
  invSqrt2 : K
  normalizeQuat : Quaternionf K → Quaternionf K

/-- enum OverlayKind. -/
inductive OverlayKind (K : Type)
  | Quad
  | Curved (curvature : K)
  | Sphere
deriving DecidableEq, Repr

/-- struct Overlay (CString fields modelled as String; the stored pair
(origin, HmdMatrix34_t) is modelled as (origin, Posef) since the matrix is
only ever converted from and back to a pose). -/
structure Overlay (K : Type) where
  key : String
  name : String
  alpha : Option K
  width : K
  visible : Bool
  kind : OverlayKind K
  z_order : Int
  bounds : VRTextureBounds K
  transform : Option (TrackingUniverseOrigin × Posef K)
  compositor : Option GraphicsApi
  rect : Option Rect2Di
deriving DecidableEq, Repr

/-- Overlay::new. -/
def Overlay.new {K : Type} [LinearOrderedField K] (key name : String) : Overlay K :=
  { key := key
    name := name
    alpha := none
    width := 1
    visible := false
    kind := OverlayKind.Quad
    z_order := 0
    bounds := { uMin := 0, vMin := 0, uMax := 1, vMax := 1 }
    transform := none
    compositor := none
    rect := none }

/-- The per-session overlay swapchain state (OverlaySessionData plus the data
the session exposes to get_layers): the optional AnySwapchainMap is a backend
tag together with a map from overlay key to the swapchain data created for it
(modelled by the extent the creating texture implied), and the session's
current tracking origin. -/
structure Session (K : Type) where
  swapchains : Option (GraphicsApi × List (Nat × Extent2Di))
  currentOrigin : TrackingUniverseOrigin
deriving DecidableEq, Repr

/-- struct OverlayMan: the slotmap of overlays, the key-to-handle index and
the skybox key list, plus the fresh-handle counter of the slotmap model. -/
structure OverlayMan (K : Type) where
  nextKey : Nat
  overlays : List (Nat × Overlay K)
  key_to_overlay : List (String × Nat)
  skybox : List Nat
deriving DecidableEq, Repr

/-- OverlayMan::new (the vtables and runtime handle carry no model state). -/
def OverlayMan.new (K : Type) : OverlayMan K :=
  { nextKey := 0, overlays := [], key_to_overlay := [], skybox := [] }

/-- Modelled from the spec: SupportedBackend::new lives in the
graphics_backends module, which is not under src; spec 4.3 step 1 says the
graphics backend is determined from the submitted texture's declared type. -/
def SupportedBackend_new {K : Type} (t : Texture K) : GraphicsApi :=
  t.api

/-- The panic message of the AnySwapchainMap conversion in set_swapchain_texture. -/
def differentTextureTypeMsg : String :=
  "Received different texture type for overlay than current"

/-- Modelled from the spec: G::get_texture and the per-API texture
introspection live in graphics_backends, which is not under src; per the
spec (section 3 invariant and section 7 taxonomy item 4) submitting a texture
whose declared API differs from the backend the overlay is bound to is a
fatal usage error.  This is the message of that modelled fatal error. -/
def mismatchedTextureMsg : String :=
  "texture API does not match the overlay backend"

/-- Replace-or-append insert for the association-list model of a map. -/
def assocInsert {β : Type} (k : Nat) (v : β) (m : List (Nat × β)) : List (Nat × β) :=
  match m.lookup k with
  | some _ => m.map (fun e => if e.1 = k then (k, v) else e)
  | none => m ++ [(k, v)]

/-- Overlay::set_texture.  Steps, as in the source:
1. compositor.get_or_insert_with(SupportedBackend::new(texture)) fixes the
   overlay's backend binding on first submission;
2. the session's swapchain map is lazily created, tagged with the bound
   backend's API;
3. the AnySwapchainMap is converted to the bound backend's concrete map,
   panicking if the session map's API differs (modelled as Except.error);
4. (spec-modelled) G::get_texture faults if the texture's declared API is not
   the bound backend's API;
5. the swapchain for the overlay's key is created, or recreated when the
   usable-swapchain check fails; either way the stored data corresponds to
   the new texture's requirements (modelled by its extent);
6. the copy reports the written extent, which is stored as the overlay's
   resolved rect with a zero offset. -/
def Overlay.set_texture {K : Type} [LinearOrderedField K] (o : Overlay K) (key : Nat)
    (sess : Session K) (t : Texture K) : Except String (Overlay K × Session K) :=
  let backend := o.compositor.getD (SupportedBackend_new t)
  let o := { o with compositor := some backend }
  let tagged := sess.swapchains.getD (backend, [])
  if tagged.1 ≠ backend then
    Except.error differentTextureTypeMsg
  else if t.api ≠ backend then
    Except.error mismatchedTextureMsg
  else
    let m := assocInsert key t.extent tagged.2
    Except.ok
      ({ o with rect := some { extent := t.extent, offsetX := 0, offsetY := 0 } },
       { sess with swapchains := some (tagged.1, m) })

/-- Lookup of a handle in the overlay table (slotmap get). -/
def tableLookup {K : Type} (st : OverlayMan K) (h : Nat) : Option (Overlay K) :=
  st.overlays.lookup h

/-- Apply a function to the overlay stored at a handle (slotmap get_mut). -/
def updateOverlay {K : Type} (st : OverlayMan K) (h : Nat) (f : Overlay K → Overlay K) :
    OverlayMan K :=
  { st with overlays := st.overlays.map (fun e => if e.1 = h then (e.1, f e.2) else e) }

/-- IVROverlay::CreateOverlay (non-null handle pointer path): insert a fresh
overlay in the table and its key in the key-to-handle index, returning the
fresh handle. -/
def CreateOverlay {K : Type} [LinearOrderedField K] (st : OverlayMan K)
    (key name : String) : OverlayMan K × EVROverlayError × Nat :=
  let ret_key := st.nextKey
  ({ st with
      nextKey := ret_key + 1
      overlays := st.overlays ++ [(ret_key, Overlay.new key name)]
      key_to_overlay := (key, ret_key) :: st.key_to_overlay.filter (fun e => e.1 ≠ key) },
   EVROverlayError.None, ret_key)

/-- IVROverlay::DestroyOverlay: remove the handle from the table if present,
and then remove that overlay's key from the index; always returns None. -/
def DestroyOverlay {K : Type} (st : OverlayMan K) (h : Nat) :
    OverlayMan K × EVROverlayError :=
  match tableLookup st h with
  | none => (st, EVROverlayError.None)
  | some o =>
      ({ st with
          overlays := st.overlays.filter (fun e => e.1 ≠ h)
          key_to_overlay := st.key_to_overlay.filter (fun e => e.1 ≠ o.key) },
       EVROverlayError.None)

/-- IVROverlay::FindOverlay (non-null handle pointer path). -/
def FindOverlay {K : Type} (st : OverlayMan K) (key : String) :
    EVROverlayError × Option Nat :=
  match st.key_to_overlay.lookup key with
  | some h => (EVROverlayError.None, some h)
  | none => (EVROverlayError.UnknownOverlay, none)

/-- IVROverlay::ShowOverlay. -/
def ShowOverlay {K : Type} (st : OverlayMan K) (h : Nat) :
    OverlayMan K × EVROverlayError :=
  match tableLookup st h with
  | none => (st, EVROverlayError.UnknownOverlay)
  | some _ => (updateOverlay st h (fun o => { o with visible := true }), EVROverlayError.None)

/-- IVROverlay::HideOverlay. -/
def HideOverlay {K : Type} (st : OverlayMan K) (h : Nat) :
    OverlayMan K × EVROverlayError :=
  match tableLookup st h with
  | none => (st, EVROverlayError.UnknownOverlay)
  | some _ => (updateOverlay st h (fun o => { o with visible := false }), EVROverlayError.None)

/-- IVROverlay::SetOverlayAlpha; extBias is the
khr_composition_layer_color_scale_bias capability flag.  The handle is looked
up first; without the capability the call is a logged no-op returning None;
alpha exactly 1.0 stores none (the never-set default). -/
def SetOverlayAlpha {K : Type} [LinearOrderedField K] (extBias : Bool)
    (st : OverlayMan K) (h : Nat) (alpha : K) : OverlayMan K × EVROverlayError :=
  match tableLookup st h with
  | none => (st, EVROverlayError.UnknownOverlay)
  | some _ =>
      if extBias = false then
        (st, EVROverlayError.None)
      else if alpha = 1 then
        (updateOverlay st h (fun o => { o with alpha := none }), EVROverlayError.None)
      else
        (updateOverlay st h (fun o => { o with alpha := some alpha }), EVROverlayError.None)

/-- IVROverlay::GetOverlayAlpha (non-null value pointer path). -/
def GetOverlayAlpha {K : Type} [LinearOrderedField K] (st : OverlayMan K) (h : Nat) :
    EVROverlayError × Option K :=
  match tableLookup st h with
  | none => (EVROverlayError.UnknownOverlay, none)
  | some o => (EVROverlayError.None, some (o.alpha.getD 1))

/-- IVROverlay::SetOverlayWidthInMeters. -/
def SetOverlayWidthInMeters {K : Type} (st : OverlayMan K) (h : Nat) (width : K) :
    OverlayMan K × EVROverlayError :=
  match tableLookup st h with
  | none => (st, EVROverlayError.UnknownOverlay)
  | some _ => (updateOverlay st h (fun o => { o with width := width }), EVROverlayError.None)

/-- IVROverlay::GetOverlayWidthInMeters (non-null value pointer path). -/
def GetOverlayWidthInMeters {K : Type} (st : OverlayMan K) (h : Nat) :
    EVROverlayError × Option K :=
  match tableLookup st h with
  | none => (EVROverlayError.UnknownOverlay, none)
  | some o => (EVROverlayError.None, some o.width)

/-- IVROverlay::SetOverlaySortOrder (the u32 value is cast to i64). -/
def SetOverlaySortOrder {K : Type} (st : OverlayMan K) (h : Nat) (value : Nat) :
    OverlayMan K × EVROverlayError :=
  match tableLookup st h with
  | none => (st, EVROverlayError.UnknownOverlay)
  | some _ => (updateOverlay st h (fun o => { o with z_order := (value : Int) }), EVROverlayError.None)

/-- IVROverlay::GetOverlaySortOrder (non-null value pointer path; the i64
z_order is cast to u32, i.e. reduced mod 2^32). -/
def GetOverlaySortOrder {K : Type} (st : OverlayMan K) (h : Nat) :
    EVROverlayError × Option Nat :=
  match tableLookup st h with
  | none => (EVROverlayError.UnknownOverlay, none)
  | some o => (EVROverlayError.None, some (o.z_order % (2 ^ 32 : Int)).toNat)

/-- IVROverlay::SetOverlayTextureBounds; the handle is looked up before the
null check of the bounds pointer (bounds = none models a null pointer). -/
def SetOverlayTextureBounds {K : Type} (st : OverlayMan K) (h : Nat)
    (bounds : Option (VRTextureBounds K)) : OverlayMan K × EVROverlayError :=
  match tableLookup st h with
  | none => (st, EVROverlayError.UnknownOverlay)
  | some _ =>
      match bounds with
      | none => (st, EVROverlayError.InvalidParameter)
      | some b => (updateOverlay st h (fun o => { o with bounds := b }), EVROverlayError.None)

/-- IVROverlay::GetOverlayTextureBounds (non-null bounds pointer path). -/
def GetOverlayTextureBounds {K : Type} (st : OverlayMan K) (h : Nat) :
    EVROverlayError × Option (VRTextureBounds K) :=
  match tableLookup st h with
  | none => (EVROverlayError.UnknownOverlay, none)
  | some o => (EVROverlayError.None, some o.bounds)

/-- Rust f32::clamp(0.0, 1.0). -/
def clamp01 {K : Type} [LinearOrderedField K] (x : K) : K :=
  max 0 (min x 1)

/-- IVROverlay::SetOverlayCurvature; extCylinder is the
khr_composition_layer_cylinder capability flag.  NOTE the source checks the
capability before looking the handle up, so with the capability absent the
call returns None for every handle. -/
def SetOverlayCurvature {K : Type} [LinearOrderedField K] (extCylinder : Bool)
    (st : OverlayMan K) (h : Nat) (value : K) : OverlayMan K × EVROverlayError :=
  if extCylinder then
    match tableLookup st h with
    | none => (st, EVROverlayError.UnknownOverlay)
    | some _ =>
        (updateOverlay st h (fun o => { o with kind := OverlayKind.Curved (clamp01 value) }),
         EVROverlayError.None)
  else
    (st, EVROverlayError.None)

/-- IVROverlay::GetOverlayCurvature (non-null value pointer path). -/
def GetOverlayCurvature {K : Type} [LinearOrderedField K] (st : OverlayMan K) (h : Nat) :
    EVROverlayError × Option K :=
  match tableLookup st h with
  | none => (EVROverlayError.UnknownOverlay, none)
  | some o =>
      (EVROverlayError.None,
       some (match o.kind with
             | OverlayKind.Curved curvature => curvature
             | _ => 0))

/-- IVROverlay::SetOverlayTransformAbsolute; the handle is looked up before
the null check of the transform pointer (pose = none models a null pointer);
the supplied orientation is re-normalised before storing. -/
def SetOverlayTransformAbsolute {K : Type} [LinearOrderedField K] (C : RtConsts K)
    (st : OverlayMan K) (h : Nat) (origin : TrackingUniverseOrigin)
    (pose : Option (Posef K)) : OverlayMan K × EVROverlayError :=
  match tableLookup st h with
  | none => (st, EVROverlayError.UnknownOverlay)
  | some _ =>
      match pose with
      | none => (st, EVROverlayError.InvalidParameter)
      | some p =>
          let p2 : Posef K :=
            { position := p.position, orientation := C.normalizeQuat p.orientation }
          (updateOverlay st h (fun o => { o with transform := some (origin, p2) }),
           EVROverlayError.None)

/-- IVROverlay::SetOverlayTexture; the handle is looked up before the null
check of the texture pointer (t = none models a null pointer). -/
def SetOverlayTexture {K : Type} [LinearOrderedField K] (st : OverlayMan K)
    (sess : Session K) (h : Nat) (t : Option (Texture K)) :
    Except String (OverlayMan K × Session K × EVROverlayError) :=
  match tableLookup st h with
  | none => Except.ok (st, sess, EVROverlayError.UnknownOverlay)
  | some o =>
      match t with
      | none => Except.ok (st, sess, EVROverlayError.InvalidParameter)
      | some t =>
          match o.set_texture h sess t with
          | Except.error e => Except.error e
          | Except.ok (o2, sess2) =>
              Except.ok (updateOverlay st h (fun _ => o2), sess2, EVROverlayError.None)

/-- OpenVR overlays are allowed to use z-order 0 and above; -1 is the
reserved skybox sentinel (SKYBOX_Z_ORDER in the source). -/
def SKYBOX_Z_ORDER : Int := -1

/-- The payload of one composition layer, by shape (OverlayLayerInner):
Quad carries pose and size; Cylinder carries radius, central angle, aspect
and pose; Equirect2 carries radius, the three angles and the pose. -/
inductive LayerInner (K : Type)
  | Quad (pose : Posef K) (width : K) (height : K)
  | Cylinder (radius : K) (centralAngle : K) (aspect : K) (pose : Posef K)
  | Equirect2 (radius : K) (horizontalAngle : K) (upperAngle : K) (lowerAngle : K)
      (pose : Posef K)
deriving DecidableEq, Repr

/-- struct OverlayLayer: the layer body, the space it was resolved against,
the swapchain sub-image (swapchain handle modelled by the overlay key, plus
the image rect), and the optional color-scale-bias payload box (modelled by
the alpha it carries). -/
structure OverlayLayer (K : Type) where
  space : TrackingUniverseOrigin
  subSwapchain : Nat
  subRect : Rect2Di
  inner : LayerInner K
  colorBias : Option K
deriving DecidableEq, Repr

/-- The debug_assert message of OverlayLayer::set_alpha. -/
def setAlphaTwiceMsg : String :=
  "attempted to set_alpha on the same CompositorLayer twice!"

/-- OverlayLayer::set_alpha.  The only guard against attaching a second
color-scale-bias payload is a debug_assert: when debugAssertions is true and
a payload is already attached the call panics with the assert message; in a
release build (debugAssertions false) the assert is compiled out and the new
payload silently replaces the stored box. -/
def OverlayLayer.set_alpha {K : Type} (debugAssertions : Bool) (l : OverlayLayer K)
    (alpha : K) : Except String (OverlayLayer K) :=
  if debugAssertions ∧ l.colorBias.isSome then
    Except.error setAlphaTwiceMsg
  else
    Except.ok { l with colorBias := some alpha }

/-- The filter applied by get_layers, in source order: the overlay must be
visible, must not be a skybox-sentinel layer when skybox rendering is not
requested, and must have a resolved rect. -/
def includeOverlay {K : Type} (renderSkybox : Bool) (o : Overlay K) : Bool :=
  o.visible && !(o.z_order == SKYBOX_Z_ORDER && !renderSkybox) && o.rect.isSome

/-- The default pose of get_layers for overlays without a stored transform:
half a meter in front of the viewer, identity orientation. -/
def defaultPose (K : Type) [LinearOrderedField K] : Posef K :=
  { position := { x := 0, y := 0, z := -(1 / 2) }, orientation := identityQuat K }

/-- Build the composition layer of one overlay in get_layers, given its
resolved rect and its key (the source looks its swapchain up by the key and
puts it in the sub-image; the model records the key).  The alpha payload is
attached via set_alpha, which on a freshly built layer (colorBias = none)
stores the overlay's alpha, hence colorBias := overlay.alpha. -/
def mkLayer {K : Type} [LinearOrderedField K] (C : RtConsts K)
    (currentOrigin : TrackingUniverseOrigin) (key : Nat) (o : Overlay K)
    (rect : Rect2Di) : OverlayLayer K :=
  let space := (o.transform.map (fun e => e.1)).getD currentOrigin
  let pose := (o.transform.map (fun e => e.2)).getD (defaultPose K)
  let inner :=
    match o.kind with
    | OverlayKind.Quad =>
        LayerInner.Quad pose o.width
          ((rect.extent.h : K) * o.width / (rect.extent.w : K))
    | OverlayKind.Curved curvature =>
        let radius := o.width / (2 * C.pi * curvature)
        let center := vadd pose.position
          (mulVec3 pose.orientation { x := 0, y := 0, z := radius })
        let angle := 2 * (o.width / (2 * radius))
        LayerInner.Cylinder radius angle
          ((rect.extent.h : K) / (rect.extent.w : K))
          { position := center, orientation := pose.orientation }
    | OverlayKind.Sphere =>
        LayerInner.Equirect2 o.width (2 * C.pi) (C.pi / 2) (-(C.pi / 2)) pose
  { space := space
    subSwapchain := key
    subRect := rect
    inner := inner
    colorBias := o.alpha }

/-- The (z_order, layer) pair get_layers collects for an included overlay. -/
def buildPair {K : Type} [LinearOrderedField K] (C : RtConsts K)
    (currentOrigin : TrackingUniverseOrigin) (e : Nat × Overlay K) :
    Int × OverlayLayer K :=
  (e.2.z_order, mkLayer C currentOrigin e.1 e.2
    (e.2.rect.getD { extent := { w := 0, h := 0 }, offsetX := 0, offsetY := 0 }))

/-- The collection loop of get_layers over the overlay enumeration: skipped
overlays contribute nothing; an included overlay whose key has no swapchain
in the session map makes the source unwrap panic (modelled as none). -/
def collectPairs {K : Type} [LinearOrderedField K] (C : RtConsts K)
    (currentOrigin : TrackingUniverseOrigin) (m : List (Nat × Extent2Di))
    (renderSkybox : Bool) : List (Nat × Overlay K) → Option (List (Int × OverlayLayer K))
  | [] => some []
  | e :: rest =>
      if includeOverlay renderSkybox e.2 then
        match m.lookup e.1 with
        | none => none
        | some _ =>
            (collectPairs C currentOrigin m renderSkybox rest).map
              (fun ps => buildPair C currentOrigin e :: ps)
      else
        collectPairs C currentOrigin m renderSkybox rest

/-- Stable insert of the insertion sort modelling Rust's stable sort_by on
the z_order component: the element passes strictly smaller heads and stops
in front of the first head that is not strictly smaller, so elements equal
in z keep their original relative order. -/
def insertByZ {α : Type} (z : α → Int) (a : α) : List α → List α
  | [] => [a]
  | b :: l => if z b < z a then b :: insertByZ z a l else a :: b :: l

/-- Stable ascending insertion sort by an Int key.  Rust's sort_by is a
stable sort; every stable comparison sort computes the same list, so this
realisation is extensionally the source's layers.sort_by on z_order. -/
def insortBy {α : Type} (z : α → Int) : List α → List α
  | [] => []
  | a :: l => insertByZ z a (insortBy z l)

/-- OverlayMan::get_layers for the API G (modelled by its tag): with no
session swapchain map it returns the empty list; with a map of a different
API it panics (none); otherwise it collects the (z_order, layer) pairs of
the included overlays, sorts them ascending by z_order with a stable sort
and returns the layers with the z_order discarded. -/
def OverlayMan.get_layers {K : Type} [LinearOrderedField K] (st : OverlayMan K)
    (C : RtConsts K) (api : GraphicsApi) (sess : Session K) (renderSkybox : Bool) :
    Option (List (OverlayLayer K)) :=
  match sess.swapchains with
  | none => some []
  | some tagged =>
      if tagged.1 = api then
        (collectPairs C sess.currentOrigin tagged.2 renderSkybox st.overlays).map
          (fun ps => (insortBy (fun p => p.1) ps).map (fun p => p.2))
      else
        none

/-- The skybox needs to be big enough that the user never leaves it
(SKYBOX_SIZE in set_skybox). -/
def SKYBOX_SIZE (K : Type) [LinearOrderedField K] : K := 500

/-- The key and name prefix of the internally owned skybox overlays. -/
def skyboxKeyName : String := "__xrizer_skybox"

/-- The panic message of the unreachable texture-count arm of set_skybox. -/
def unreachableMsg : String := "internal error: entered unreachable code"

/-- The six fixed cube-face poses of the 6-texture skybox (QUAD_POSES), in
source order front, back, left, right, up, down; positions are offset by
plus or minus SKYBOX_SIZE along one axis and orientations are the fixed
axis-aligned facing quaternions, the diagonal ones built from 1/sqrt 2. -/
def QUAD_POSES {K : Type} [LinearOrderedField K] (C : RtConsts K) : List (Posef K) :=
  [ { position := { x := 0, y := 0, z := -(SKYBOX_SIZE K) },
      orientation := { x := 0, y := 0, z := 1, w := 0 } },
    { position := { x := 0, y := 0, z := SKYBOX_SIZE K },
      orientation := { x := 1, y := 0, z := 0, w := 0 } },
    { position := { x := -(SKYBOX_SIZE K), y := 0, z := 0 },
      orientation := { x := C.invSqrt2, y := 0, z := C.invSqrt2, w := 0 } },
    { position := { x := SKYBOX_SIZE K, y := 0, z := 0 },
      orientation := { x := -C.invSqrt2, y := 0, z := C.invSqrt2, w := 0 } },
    { position := { x := 0, y := SKYBOX_SIZE K, z := 0 },
      orientation := { x := 0, y := -C.invSqrt2, z := C.invSqrt2, w := 0 } },
    { position := { x := 0, y := -(SKYBOX_SIZE K), z := 0 },
      orientation := { x := 0, y := C.invSqrt2, z := C.invSqrt2, w := 0 } } ]

/-- The 6-texture loop body of set_skybox: for each (idx, texture) insert a
fresh overlay named with the index, submit the texture, mark it visible with
width 2 * SKYBOX_SIZE, Quad kind, the skybox sentinel z-order and the fixed
cube-face pose of the index (relative to the Standing origin), and push its
key on the skybox list. -/
def add_skybox_faces {K : Type} [LinearOrderedField K] (C : RtConsts K) :
    Nat → List (Texture K) → OverlayMan K → Session K →
    Except String (OverlayMan K × Session K)
  | _, [], st, sess => Except.ok (st, sess)
  | idx, t :: rest, st, sess =>
      let name := skyboxKeyName ++ "_" ++ toString idx
      let key := st.nextKey
      match (Overlay.new name name).set_texture key sess t with
      | Except.error e => Except.error e
      | Except.ok (o, sess2) =>
          let o := { o with
              visible := true
              width := SKYBOX_SIZE K * 2
              kind := OverlayKind.Quad
              z_order := SKYBOX_Z_ORDER
              transform := some (TrackingUniverseOrigin.Standing,
                (QUAD_POSES C).getD idx (defaultPose K)) }
          add_skybox_faces C (idx + 1) rest
            { st with
                nextKey := key + 1
                overlays := st.overlays ++ [(key, o)]
                skybox := st.skybox ++ [key] }
            sess2

/-- OverlayMan::clear_skybox: drain the skybox key list, removing each key
from the overlay table. -/
def OverlayMan.clear_skybox {K : Type} (st : OverlayMan K) : OverlayMan K :=
  { st with
      overlays := st.overlays.filter (fun e => !(st.skybox.contains e.1))
      skybox := [] }

/-- OverlayMan::set_skybox: clear any previous skybox first; with 1 or 2
textures build one visible Sphere overlay of width (radius) SKYBOX_SIZE at
the sentinel z-order from the first texture; with 6 textures build the six
cube-face quads; any other count hits the unreachable arm, i.e. panics. -/
def OverlayMan.set_skybox {K : Type} [LinearOrderedField K] (st : OverlayMan K)
    (C : RtConsts K) (sess : Session K) (textures : List (Texture K)) :
    Except String (OverlayMan K × Session K) :=
  let st0 := st.clear_skybox
  if textures.length = 1 ∨ textures.length = 2 then
    match textures with
    | [] => Except.error unreachableMsg
    | t :: _ =>
        let key := st0.nextKey
        match (Overlay.new skyboxKeyName skyboxKeyName).set_texture key sess t with
        | Except.error e => Except.error e
        | Except.ok (o, sess2) =>
            let o := { o with
                visible := true
                width := SKYBOX_SIZE K
                kind := OverlayKind.Sphere
                z_order := SKYBOX_Z_ORDER }
            Except.ok
              ({ st0 with
                  nextKey := key + 1
                  overlays := st0.overlays ++ [(key, o)]
                  skybox := st0.skybox ++ [key] },
               sess2)
  else if textures.length = 6 then
    add_skybox_faces C 0 textures st0 sess
  else
    Except.error unreachableMsg

/-- One call of the create/destroy interface, for reasoning about arbitrary
call sequences. -/
inductive OvOp
  | create (key name : String)
  | destroy (h : Nat)
deriving DecidableEq, Repr

/-- Apply one create/destroy call to the store state. -/
def applyOp {K : Type} [LinearOrderedField K] (st : OverlayMan K) : OvOp → OverlayMan K
  | OvOp.create k n => (CreateOverlay st k n).1
  | OvOp.destroy h => (DestroyOverlay st h).1

/-- Run a sequence of create/destroy calls. -/
def execOps {K : Type} [LinearOrderedField K] (st : OverlayMan K) : List OvOp → OverlayMan K
  | [] => st
  | op :: rest => execOps (applyOp st op) rest

/-- The caller contract on keys: a created key is not the key of any live
overlay (spec: key must be unique among live overlays). -/
def keyFresh {K : Type} (st : OverlayMan K) (k : String) : Bool :=
  st.overlays.all (fun e => e.2.key ≠ k)

/-- A call sequence respects the key-uniqueness caller contract when every
create uses a key that is fresh at its point in the sequence. -/
def contractOK {K : Type} [LinearOrderedField K] (st : OverlayMan K) : List OvOp → Bool
  | [] => true
  | OvOp.create k n :: rest =>
      keyFresh st k && contractOK (applyOp st (OvOp.create k n)) rest
  | OvOp.destroy h :: rest => contractOK (applyOp st (OvOp.destroy h)) rest

/-- Mutual consistency of the key-to-handle index and the overlay table:
every index entry maps to a registered overlay carrying that key, and every
registered overlay's key is in the index and maps back to its handle. -/
def Consistent {K : Type} (st : OverlayMan K) : Prop :=
  (∀ k h, st.key_to_overlay.lookup k = some h →
    ∃ o, tableLookup st h = some o ∧ o.key = k) ∧
  (∀ h o, tableLookup st h = some o → st.key_to_overlay.lookup o.key = some h)

/-- Auxiliary wellformedness of the slotmap model: every registered handle is
below the fresh counter, handles are distinct and index entry keys are
distinct. -/
def WfMan {K : Type} (st : OverlayMan K) : Prop :=
  (∀ e ∈ st.overlays, e.1 < st.nextKey) ∧
  st.overlays.Pairwise (fun a b => a.1 ≠ b.1) ∧
  st.key_to_overlay.Pairwise (fun a b => a.1 ≠ b.1)

theorem lookup_cons {α β : Type} [BEq α] (a k : α) (v : β) (l : List (α × β)) :
    List.lookup a ((k, v) :: l) = bif a == k then some v else List.lookup a l := by
  cases h : a == k <;> simp [List.lookup, h]

theorem lookup_eq_none_of_all {α β : Type} [BEq α] [LawfulBEq α]
    {l : List (α × β)} {a : α} (h : ∀ e ∈ l, e.1 ≠ a) : l.lookup a = none := by
  induction l with
  | nil => rfl
  | cons e l ih =>
      obtain ⟨k, v⟩ := e
      have hk : a ≠ k := fun hak => h (k, v) (List.mem_cons_self _ _) (by simp [hak])
      rw [lookup_cons, beq_eq_false_iff_ne.mpr hk]
      exact ih (fun e he => h e (List.mem_cons_of_mem _ he))

theorem mem_of_lookup_eq_some {α β : Type} [BEq α] [LawfulBEq α]
    {l : List (α × β)} {a : α} {b : β} (h : l.lookup a = some b) : (a, b) ∈ l := by
  induction l with
  | nil => simp [List.lookup] at h
  | cons e l ih =>
      obtain ⟨k, v⟩ := e
      rw [lookup_cons] at h
      cases hak : a == k with
      | true =>
          rw [hak] at h
          cases h
          have : a = k := eq_of_beq hak
          subst this
          exact List.mem_cons_self _ _
      | false =>
          rw [hak] at h
          exact List.mem_cons_of_mem _ (ih h)

theorem lookup_filter_self {α β : Type} [BEq α] [LawfulBEq α] [DecidableEq α]
    (l : List (α × β)) (a : α) : (l.filter (fun e => e.1 ≠ a)).lookup a = none := by
  refine lookup_eq_none_of_all ?_
  intro e he
  have := (List.mem_filter.mp he).2
  simpa using this

theorem lookup_filter_ne {α β : Type} [BEq α] [LawfulBEq α] [DecidableEq α]
    (l : List (α × β)) {a k : α} (hk : k ≠ a) :
    (l.filter (fun e => e.1 ≠ a)).lookup k = l.lookup k := by
  induction l with
  | nil => rfl
  | cons e l ih =>
      obtain ⟨k0, v⟩ := e
      rw [List.filter_cons]
      by_cases h0 : k0 = a
      · have hne : k ≠ k0 := fun h => hk (h.trans h0)
        rw [if_neg (by simp [h0]), lookup_cons, beq_eq_false_iff_ne.mpr hne]
        exact ih
      · rw [if_pos (by simp [h0]), lookup_cons, lookup_cons]
        cases hkk : k == k0 with
        | true => simp
        | false =>
            simp only [cond_false]
            simpa using ih

theorem lookup_update {α β : Type} [BEq α] [LawfulBEq α] [DecidableEq α]
    (l : List (α × β)) (h k : α) (f : β → β) :
    (l.map (fun e => if e.1 = h then (e.1, f e.2) else e)).lookup k =
      if k = h then (l.lookup k).map f else l.lookup k := by
  induction l with
  | nil => simp [List.lookup]
  | cons e l ih =>
      obtain ⟨k0, v⟩ := e
      rw [List.map_cons]
      by_cases h0 : k0 = h
      · rw [show (if (k0, v).1 = h then ((k0, v).1, f (k0, v).2) else (k0, v)) =
            (k0, f v) by simp [h0]]
        rw [lookup_cons, lookup_cons]
        cases hkk : k == k0 with
        | true =>
            have : k = k0 := eq_of_beq hkk
            simp [this, h0]
        | false => simp [ih]
      · rw [show (if (k0, v).1 = h then ((k0, v).1, f (k0, v).2) else (k0, v)) =
            (k0, v) by simp [h0]]
        rw [lookup_cons, lookup_cons]
        cases hkk : k == k0 with
        | true =>
            have hk0 : k = k0 := eq_of_beq hkk
            simp [hk0, h0]
        | false => simp [ih]

theorem lookup_append {α β : Type} [BEq α] (l₁ l₂ : List (α × β)) (a : α) :
    (l₁ ++ l₂).lookup a =
      match l₁.lookup a with
      | some v => some v
      | none => l₂.lookup a := by
  induction l₁ with
  | nil => simp [List.lookup]
  | cons e l ih =>
      obtain ⟨k, v⟩ := e
      rw [List.cons_append, lookup_cons, lookup_cons]
      cases hkv : (a == k) <;> simp [ih]

theorem insertByZ_perm {α : Type} (z : α → Int) (a : α) (l : List α) :
    List.Perm (insertByZ z a l) (a :: l) := by
  induction l with
  | nil => simp [insertByZ]
  | cons b l ih =>
      rw [insertByZ]
      by_cases h : z b < z a
      · rw [if_pos h]
        exact (List.Perm.cons b ih).trans (List.Perm.swap a b l)
      · rw [if_neg h]

theorem pairwise_insertByZ {α : Type} (z : α → Int) (a : α) {l : List α}
    (hl : l.Pairwise (fun x y => z x ≤ z y)) :
    (insertByZ z a l).Pairwise (fun x y => z x ≤ z y) := by
  induction l with
  | nil => simp [insertByZ]
  | cons b l ih =>
      rw [List.pairwise_cons] at hl
      rw [insertByZ]
      by_cases h : z b < z a
      · rw [if_pos h]
        rw [List.pairwise_cons]
        constructor
        · intro x hx
          rcases List.mem_cons.mp ((insertByZ_perm z a l).mem_iff.mp hx) with hxa | hxl
          · subst hxa
            exact le_of_lt h
          · exact hl.1 x hxl
        · exact ih hl.2
      · rw [if_neg h]
        rw [List.pairwise_cons]
        refine ⟨?_, List.pairwise_cons.mpr hl⟩
        intro x hx
        rcases List.mem_cons.mp hx with hxb | hxl
        · subst hxb
          exact le_of_not_lt h
        · exact le_trans (le_of_not_lt h) (hl.1 x hxl)

theorem pairwise_insortBy {α : Type} (z : α → Int) (l : List α) :
    (insortBy z l).Pairwise (fun x y => z x ≤ z y) := by
  induction l with
  | nil => simp [insortBy]
  | cons a l ih => exact pairwise_insertByZ z a ih

theorem insortBy_perm {α : Type} (z : α → Int) (l : List α) :
    List.Perm (insortBy z l) l := by
  induction l with
  | nil => simp [insortBy]
  | cons a l ih =>
      exact (insertByZ_perm z a (insortBy z l)).trans (List.Perm.cons a ih)

theorem filter_insertByZ {α : Type} (z : α → Int) (a : α) (l : List α) (k : Int) :
    (insertByZ z a l).filter (fun b => z b = k) =
      if z a = k then a :: l.filter (fun b => z b = k)
      else l.filter (fun b => z b = k) := by
  induction l with
  | nil =>
      rw [insertByZ]
      by_cases hak : z a = k <;> simp [hak]
  | cons b l ih =>
      rw [insertByZ]
      by_cases hba : z b < z a
      · rw [if_pos hba, List.filter_cons, List.filter_cons]
        by_cases hbk : z b = k
        · have hak : ¬z a = k := fun hak => absurd hba (by rw [hak, hbk]; simp)
          simp [hbk, hak, ih]
        · simp [hbk, ih]
      · rw [if_neg hba, List.filter_cons]
        by_cases hak : z a = k <;> simp [hak, List.filter_cons]

theorem filter_insortBy {α : Type} (z : α → Int) (l : List α) (k : Int) :
    (insortBy z l).filter (fun b => z b = k) = l.filter (fun b => z b = k) := by
  induction l with
  | nil => simp [insortBy]
  | cons a l ih =>
      rw [insortBy, filter_insertByZ, List.filter_cons]
      by_cases hak : z a = k <;> simp [hak, ih]

theorem collectPairs_eq_some {K : Type} [LinearOrderedField K] (C : RtConsts K)
    (origin : TrackingUniverseOrigin) (m : List (Nat × Extent2Di))
    (renderSkybox : Bool) (entries : List (Nat × Overlay K))
    (hkeys : ∀ e ∈ entries, includeOverlay renderSkybox e.2 = true →
      (m.lookup e.1).isSome = true) :
    collectPairs C origin m renderSkybox entries =
      some ((entries.filter (fun e => includeOverlay renderSkybox e.2)).map
        (buildPair C origin)) := by
  induction entries with
  | nil => simp [collectPairs]
  | cons e rest ih =>
      have hrest : ∀ e2 ∈ rest, includeOverlay renderSkybox e2.2 = true →
          (m.lookup e2.1).isSome = true :=
        fun e2 he2 => hkeys e2 (List.mem_cons_of_mem _ he2)
      rw [collectPairs, List.filter_cons]
      by_cases hinc : includeOverlay renderSkybox e.2 = true
      · rw [if_pos hinc, if_pos (by simp [hinc])]
        have := hkeys e (List.mem_cons_self _ _) hinc
        cases hm : m.lookup e.1 with
        | none => rw [hm] at this; simp at this
        | some _ => simp [ih hrest]
      · rw [if_neg hinc, if_neg (by simpa using hinc)]
        exact ih hrest

/-- Stand-in constants for concrete evaluation over the rationals: the exact
values of pi, 1/sqrt 2 and the normalisation routine are irrelevant to every
concrete statement below (none compares the fields they feed). -/
def testConsts : RtConsts ℚ :=
  { pi := 355 / 113, invSqrt2 := 169 / 239, normalizeQuat := id }

/-- A concrete resolved rect used by the concrete states below. -/
def demoRect : Rect2Di := { extent := { w := 64, h := 32 }, offsetX := 0, offsetY := 0 }

/-- A visible overlay with a resolved rect and the given key and z-order. -/
def demoOverlayZ (k : String) (z : Int) : Overlay ℚ :=
  { Overlay.new k k with visible := true, z_order := z, rect := some demoRect }

/-- The overlay store of the spec's worked example: z-orders 5, -1 (the
skybox sentinel), 3, 5 in enumeration order. -/
def demoSt : OverlayMan ℚ :=
  { nextKey := 4
    overlays := [(0, demoOverlayZ "a" 5), (1, demoOverlayZ "b" (-1)),
      (2, demoOverlayZ "c" 3), (3, demoOverlayZ "d" 5)]
    key_to_overlay := [("a", 0), ("b", 1), ("c", 2), ("d", 3)]
    skybox := [1] }

/-- A session swapchain map holding a swapchain for each demo overlay. -/
def demoMap : List (Nat × Extent2Di) :=
  [(0, { w := 64, h := 32 }), (1, { w := 64, h := 32 }),
   (2, { w := 64, h := 32 }), (3, { w := 64, h := 32 })]

/-- The demo session: Vulkan swapchain map, Standing origin. -/
def demoSess : Session ℚ :=
  { swapchains := some (GraphicsApi.vulkan, demoMap),
    currentOrigin := TrackingUniverseOrigin.Standing }

/-- C1: for every set of live overlays and every render_skybox flag, the
layer list returned by get_layers is the stable ascending z_order sort of
exactly the (z_order, layer) pairs of the overlays that pass the builder's
filter (visible, resolved rect present, and not at the skybox sentinel
z-order when skybox rendering is not requested): the collected pairs are the
enumeration-order filter of the overlay table, the returned list is the
sorted pairs with z_order discarded, the sorted pairs are ascending in
z_order, and for every z value the sorted pairs restricted to that value
keep the enumeration order (stability). -/
theorem c1_get_layers_sorted_stable_exact {K : Type} [LinearOrderedField K]
    (C : RtConsts K) (st : OverlayMan K) (api : GraphicsApi) (sess : Session K)
    (renderSkybox : Bool) (m : List (Nat × Extent2Di))
    (hsw : sess.swapchains = some (api, m))
    (hkeys : ∀ e ∈ st.overlays, includeOverlay renderSkybox e.2 = true →
      (m.lookup e.1).isSome = true) :
    ∃ pairs : List (Int × OverlayLayer K),
      collectPairs C sess.currentOrigin m renderSkybox st.overlays = some pairs ∧
      pairs = (st.overlays.filter (fun e => includeOverlay renderSkybox e.2)).map
        (buildPair C sess.currentOrigin) ∧
      st.get_layers C api sess renderSkybox =
        some ((insortBy (fun p => p.1) pairs).map (fun p => p.2)) ∧
      (insortBy (fun p => p.1) pairs).Pairwise (fun p q => p.1 ≤ q.1) ∧
      ∀ zv : Int, (insortBy (fun p => p.1) pairs).filter (fun p => p.1 = zv) =
        pairs.filter (fun p => p.1 = zv) := by
  refine ⟨(st.overlays.filter (fun e => includeOverlay renderSkybox e.2)).map
    (buildPair C sess.currentOrigin),
    collectPairs_eq_some C sess.currentOrigin m renderSkybox st.overlays hkeys,
    rfl, ?_, pairwise_insortBy _ _, fun zv => filter_insortBy _ _ zv⟩
  simp only [OverlayMan.get_layers, hsw]
  rw [collectPairs_eq_some C sess.currentOrigin m renderSkybox st.overlays hkeys]
  simp

/-- Witness for C1 at the spec's worked example: overlays with z-orders
5, -1, 3, 5 in enumeration order, skybox rendering requested. -/
theorem c1_witness :
    (demoSess.swapchains = some (GraphicsApi.vulkan, demoMap) ∧
      ∀ e ∈ demoSt.overlays, includeOverlay true e.2 = true →
        ((demoMap).lookup e.1).isSome = true) ∧
    ∃ pairs : List (Int × OverlayLayer ℚ),
      collectPairs testConsts demoSess.currentOrigin demoMap true demoSt.overlays =
        some pairs ∧
      pairs = (demoSt.overlays.filter (fun e => includeOverlay true e.2)).map
        (buildPair testConsts demoSess.currentOrigin) ∧
      demoSt.get_layers testConsts GraphicsApi.vulkan demoSess true =
        some ((insortBy (fun p => p.1) pairs).map (fun p => p.2)) ∧
      (insortBy (fun p => p.1) pairs).Pairwise (fun p q => p.1 ≤ q.1) ∧
      ∀ zv : Int, (insortBy (fun p => p.1) pairs).filter (fun p => p.1 = zv) =
        pairs.filter (fun p => p.1 = zv) :=
  ⟨⟨rfl, by decide⟩,
   c1_get_layers_sorted_stable_exact testConsts demoSt GraphicsApi.vulkan demoSess
     true demoMap rfl (by decide)⟩

theorem destroy_not_registered {K : Type} (st : OverlayMan K) (h : Nat)
    (hl : tableLookup st h = none) : DestroyOverlay st h = (st, EVROverlayError.None) := by
  simp [DestroyOverlay, hl]

theorem tableLookup_destroy_self {K : Type} (st : OverlayMan K) (h : Nat) :
    tableLookup (DestroyOverlay st h).1 h = none := by
  cases hl : tableLookup st h with
  | none => simp [DestroyOverlay, hl]
  | some o =>
      have hl2 : st.overlays.lookup h = some o := hl
      simp only [DestroyOverlay, tableLookup, hl2]
      simpa using lookup_filter_self st.overlays h

/-- C10: DestroyOverlay on a handle that is not registered (never issued or
already destroyed) returns the success code None and leaves the overlay
table and the key-to-handle index unchanged; consequently destroying the
same handle twice is harmless. -/
theorem c10_destroy_unknown_is_noop {K : Type} [LinearOrderedField K] :
    (∀ (st : OverlayMan K) (h : Nat), tableLookup st h = none →
      DestroyOverlay st h = (st, EVROverlayError.None)) ∧
    (∀ (st : OverlayMan K) (h : Nat),
      DestroyOverlay (DestroyOverlay st h).1 h =
        ((DestroyOverlay st h).1, EVROverlayError.None)) :=
  ⟨destroy_not_registered,
   fun st h => destroy_not_registered _ h (tableLookup_destroy_self st h)⟩

/-- Witness for C10: handle 99 is not registered in the demo store; the
double-destroy of handle 0 is also harmless. -/
theorem c10_witness :
    (tableLookup demoSt 99 = none ∧
      DestroyOverlay demoSt 99 = (demoSt, EVROverlayError.None)) ∧
    DestroyOverlay (DestroyOverlay demoSt 0).1 0 =
      ((DestroyOverlay demoSt 0).1, EVROverlayError.None) :=
  ⟨⟨rfl, (c10_destroy_unknown_is_noop (K := ℚ)).1 demoSt 99 rfl⟩,
   (c10_destroy_unknown_is_noop (K := ℚ)).2 demoSt 0⟩

/-- C8: with the blend-bias capability available, setting alpha to exactly
1.0 stores the never-set default (alpha := none): the call stores none on
the overlay, GetOverlayAlpha subsequently returns 1.0, and the layer built
for an overlay with unset alpha carries no blend-bias payload. -/
theorem c8_alpha_one_equals_unset {K : Type} [LinearOrderedField K]
    (st : OverlayMan K) (h : Nat) (o : Overlay K)
    (ho : tableLookup st h = some o) :
    SetOverlayAlpha true st h 1 =
      (updateOverlay st h (fun o2 => { o2 with alpha := none }), EVROverlayError.None) ∧
    tableLookup (SetOverlayAlpha true st h 1).1 h = some { o with alpha := none } ∧
    GetOverlayAlpha (SetOverlayAlpha true st h 1).1 h =
      (EVROverlayError.None, some 1) ∧
    (∀ (C : RtConsts K) (origin : TrackingUniverseOrigin) (key : Nat) (rect : Rect2Di),
      (mkLayer C origin key { o with alpha := none } rect).colorBias = none) := by
  have hset : SetOverlayAlpha true st h 1 =
      (updateOverlay st h (fun o2 => { o2 with alpha := none }), EVROverlayError.None) := by
    simp [SetOverlayAlpha, ho]
  have hlook : tableLookup (SetOverlayAlpha true st h 1).1 h =
      some { o with alpha := none } := by
    rw [hset]
    show (st.overlays.map _).lookup h = _
    rw [lookup_update st.overlays h h (fun o2 => { o2 with alpha := none }),
      if_pos rfl]
    rw [show st.overlays.lookup h = some o from ho]
    rfl
  refine ⟨hset, hlook, ?_, ?_⟩
  · simp [GetOverlayAlpha, hlook]
  · intro C origin key rect
    simp [mkLayer]

/-- Witness for C8 at the demo store, handle 0. -/
theorem c8_witness :
    (tableLookup demoSt 0 = some (demoOverlayZ "a" 5)) ∧
    (SetOverlayAlpha true demoSt 0 1 =
      (updateOverlay demoSt 0 (fun o2 => { o2 with alpha := none }), EVROverlayError.None) ∧
    tableLookup (SetOverlayAlpha true demoSt 0 1).1 0 =
      some { demoOverlayZ "a" 5 with alpha := none } ∧
    GetOverlayAlpha (SetOverlayAlpha true demoSt 0 1).1 0 =
      (EVROverlayError.None, some 1) ∧
    (∀ (C : RtConsts ℚ) (origin : TrackingUniverseOrigin) (key : Nat) (rect : Rect2Di),
      (mkLayer C origin key { demoOverlayZ "a" 5 with alpha := none } rect).colorBias = none)) :=
  ⟨rfl, c8_alpha_one_equals_unset demoSt 0 (demoOverlayZ "a" 5) rfl⟩

/-- C3: once an overlay's backend binding is set, a successful texture
submission never changes it, and a texture submission whose declared API
differs from the binding never succeeds: it is a fatal error (the
AnySwapchainMap conversion panic when the session map has another API, and
the spec-modelled fatal texture introspection mismatch otherwise). -/
theorem c3_backend_binding_immutable {K : Type} [LinearOrderedField K]
    (o : Overlay K) (b : GraphicsApi) (hb : o.compositor = some b)
    (key : Nat) (sess : Session K) (t : Texture K) :
    (∀ (o2 : Overlay K) (sess2 : Session K),
      o.set_texture key sess t = Except.ok (o2, sess2) → o2.compositor = some b) ∧
    (t.api ≠ b → ∃ msg, o.set_texture key sess t = Except.error msg) := by
  constructor
  · intro o2 sess2 hok
    simp only [Overlay.set_texture, hb, Option.getD_some] at hok
    by_cases h1 : (sess.swapchains.getD (b, [])).1 ≠ b
    · rw [if_pos h1] at hok
      cases hok
    · rw [if_neg h1] at hok
      by_cases h2 : t.api ≠ b
      · rw [if_pos h2] at hok
        cases hok
      · rw [if_neg h2] at hok
        simp only [Except.ok.injEq, Prod.mk.injEq] at hok
        obtain ⟨ho2, -⟩ := hok
        subst ho2
        rfl
  · intro hne
    simp only [Overlay.set_texture, hb, Option.getD_some]
    by_cases h1 : (sess.swapchains.getD (b, [])).1 ≠ b
    · exact ⟨differentTextureTypeMsg, by rw [if_pos h1]⟩
    · exact ⟨mismatchedTextureMsg, by rw [if_neg h1, if_pos hne]⟩

/-- An overlay already bound to the Vulkan backend, for the C3 witness. -/
def c3Overlay : Overlay ℚ :=
  { Overlay.new "ov" "ov" with compositor := some GraphicsApi.vulkan }

/-- Witness for C3: submitting an OpenGL texture to a Vulkan-bound overlay
is a fatal error. -/
theorem c3_witness :
    c3Overlay.compositor = some GraphicsApi.vulkan ∧
    ∃ msg, c3Overlay.set_texture 0 demoSess
      { api := GraphicsApi.opengl, extent := { w := 8, h := 8 } } = Except.error msg :=
  ⟨rfl,
   (c3_backend_binding_immutable c3Overlay GraphicsApi.vulkan rfl 0 demoSess
     { api := GraphicsApi.opengl, extent := { w := 8, h := 8 } }).2 (by decide)⟩

/-- C6 (amended): every modelled property getter and setter except the
capability-gated SetOverlayCurvature returns UnknownOverlay for an
unregistered handle and changes no state; SetOverlayCurvature behaves that
way when the cylinder-layer capability is present. -/
theorem c6_unknown_overlay_errors {K : Type} [LinearOrderedField K]
    (C : RtConsts K) (st : OverlayMan K) (sess : Session K) (h : Nat)
    (w a v : K) (so : Nat) (bnds : VRTextureBounds K)
    (origin : TrackingUniverseOrigin) (p : Posef K) (t : Texture K) (extBias : Bool)
    (hl : tableLookup st h = none) :
    ShowOverlay st h = (st, EVROverlayError.UnknownOverlay) ∧
    HideOverlay st h = (st, EVROverlayError.UnknownOverlay) ∧
    SetOverlayWidthInMeters st h w = (st, EVROverlayError.UnknownOverlay) ∧
    GetOverlayWidthInMeters st h = (EVROverlayError.UnknownOverlay, (none : Option K)) ∧
    SetOverlayAlpha extBias st h a = (st, EVROverlayError.UnknownOverlay) ∧
    GetOverlayAlpha st h = (EVROverlayError.UnknownOverlay, (none : Option K)) ∧
    SetOverlaySortOrder st h so = (st, EVROverlayError.UnknownOverlay) ∧
    GetOverlaySortOrder st h = (EVROverlayError.UnknownOverlay, none) ∧
    SetOverlayTextureBounds st h (some bnds) = (st, EVROverlayError.UnknownOverlay) ∧
    GetOverlayTextureBounds st h = (EVROverlayError.UnknownOverlay, none) ∧
    SetOverlayCurvature true st h v = (st, EVROverlayError.UnknownOverlay) ∧
    GetOverlayCurvature st h = (EVROverlayError.UnknownOverlay, (none : Option K)) ∧
    SetOverlayTransformAbsolute C st h origin (some p) =
      (st, EVROverlayError.UnknownOverlay) ∧
    SetOverlayTexture st sess h (some t) =
      Except.ok (st, sess, EVROverlayError.UnknownOverlay) := by
  refine ⟨?_, ?_, ?_, ?_, ?_, ?_, ?_, ?_, ?_, ?_, ?_, ?_, ?_, ?_⟩ <;>
    simp [ShowOverlay, HideOverlay, SetOverlayWidthInMeters, GetOverlayWidthInMeters,
      SetOverlayAlpha, GetOverlayAlpha, SetOverlaySortOrder, GetOverlaySortOrder,
      SetOverlayTextureBounds, GetOverlayTextureBounds, SetOverlayCurvature,
      GetOverlayCurvature, SetOverlayTransformAbsolute, SetOverlayTexture, hl]

/-- Counterexample for C6 as frozen: with the cylinder-layer capability
absent, SetOverlayCurvature on the unregistered handle 7 returns the success
code None, not UnknownOverlay. -/
theorem c6_counterexample :
    tableLookup (OverlayMan.new ℚ) 7 = none ∧
    SetOverlayCurvature false (OverlayMan.new ℚ) 7 (1 / 2) =
      (OverlayMan.new ℚ, EVROverlayError.None) ∧
    EVROverlayError.None ≠ EVROverlayError.UnknownOverlay :=
  ⟨rfl, rfl, by decide⟩

/-- Witness for C6 (amended) at the demo store with the unregistered
handle 99. -/
theorem c6_witness :
    tableLookup demoSt 99 = none ∧
    (ShowOverlay demoSt 99 = (demoSt, EVROverlayError.UnknownOverlay) ∧
    HideOverlay demoSt 99 = (demoSt, EVROverlayError.UnknownOverlay) ∧
    SetOverlayWidthInMeters demoSt 99 (2 : ℚ) = (demoSt, EVROverlayError.UnknownOverlay) ∧
    GetOverlayWidthInMeters demoSt 99 = (EVROverlayError.UnknownOverlay, (none : Option ℚ)) ∧
    SetOverlayAlpha true demoSt 99 (1 / 2 : ℚ) = (demoSt, EVROverlayError.UnknownOverlay) ∧
    GetOverlayAlpha demoSt 99 = (EVROverlayError.UnknownOverlay, (none : Option ℚ)) ∧
    SetOverlaySortOrder demoSt 99 3 = (demoSt, EVROverlayError.UnknownOverlay) ∧
    GetOverlaySortOrder demoSt 99 = (EVROverlayError.UnknownOverlay, none) ∧
    SetOverlayTextureBounds demoSt 99
      (some { uMin := 0, vMin := 0, uMax := 1, vMax := 1 }) =
      (demoSt, EVROverlayError.UnknownOverlay) ∧
    GetOverlayTextureBounds demoSt 99 = (EVROverlayError.UnknownOverlay, none) ∧
    SetOverlayCurvature true demoSt 99 (1 / 2 : ℚ) = (demoSt, EVROverlayError.UnknownOverlay) ∧
    GetOverlayCurvature demoSt 99 = (EVROverlayError.UnknownOverlay, (none : Option ℚ)) ∧
    SetOverlayTransformAbsolute testConsts demoSt 99 TrackingUniverseOrigin.Standing
      (some (defaultPose ℚ)) = (demoSt, EVROverlayError.UnknownOverlay) ∧
    SetOverlayTexture demoSt demoSess 99
      (some { api := GraphicsApi.vulkan, extent := { w := 8, h := 8 } }) =
      Except.ok (demoSt, demoSess, EVROverlayError.UnknownOverlay)) :=
  ⟨rfl,
   c6_unknown_overlay_errors testConsts demoSt demoSess 99 2 (1 / 2) (1 / 2) 3
     { uMin := 0, vMin := 0, uMax := 1, vMax := 1 } TrackingUniverseOrigin.Standing
     (defaultPose ℚ) { api := GraphicsApi.vulkan, extent := { w := 8, h := 8 } }
     true rfl⟩

/-- C7 (amended): a SetSkybox call whose texture count is not 1, 2 or 6
reaches the unreachable arm of the count match, i.e. it panics (a process
fault) rather than returning a status code; the caller contract is
documented caller-correctness. -/
theorem c7_invalid_count_panics {K : Type} [LinearOrderedField K]
    (C : RtConsts K) (st : OverlayMan K) (sess : Session K)
    (texs : List (Texture K))
    (h1 : ¬(texs.length = 1 ∨ texs.length = 2)) (h6 : texs.length ≠ 6) :
    st.set_skybox C sess texs = Except.error unreachableMsg := by
  simp only [OverlayMan.set_skybox]
  rw [if_neg h1, if_neg h6]

/-- Counterexample for C7 as frozen: a SetSkybox call with 0 textures is a
process fault (the unreachable panic), not a status-code return. -/
theorem c7_counterexample :
    (OverlayMan.new ℚ).set_skybox testConsts demoSess ([] : List (Texture ℚ)) =
      Except.error unreachableMsg := by
  rfl

/-- A 3-texture list for the C7 witness. -/
def ts3 : List (Texture ℚ) :=
  [{ api := GraphicsApi.vulkan, extent := { w := 8, h := 8 } },
   { api := GraphicsApi.vulkan, extent := { w := 8, h := 8 } },
   { api := GraphicsApi.vulkan, extent := { w := 8, h := 8 } }]

/-- Witness for C7 (amended): 3 textures hit the unreachable panic. -/
theorem c7_witness :
    (¬(ts3.length = 1 ∨ ts3.length = 2) ∧ ts3.length ≠ 6) ∧
    (OverlayMan.new ℚ).set_skybox testConsts demoSess ts3 =
      Except.error unreachableMsg :=
  ⟨⟨by decide, by decide⟩,
   c7_invalid_count_panics testConsts (OverlayMan.new ℚ) demoSess ts3
     (by decide) (by decide)⟩

/-- C9 (amended): attaching a second blend-bias payload to a layer that
already has one fails via the debug assertion when debug assertions are on;
in a release build (assertions off) the call is not rejected and the new
payload silently replaces the stored one. -/
theorem c9_set_alpha_second_attach {K : Type} [LinearOrderedField K]
    (l : OverlayLayer K) (a : K) (h : l.colorBias.isSome = true) :
    l.set_alpha true a = Except.error setAlphaTwiceMsg ∧
    l.set_alpha false a = Except.ok { l with colorBias := some a } := by
  constructor
  · rw [OverlayLayer.set_alpha, if_pos ⟨rfl, h⟩]
  · rw [OverlayLayer.set_alpha, if_neg (by simp)]

/-- A freshly built quad layer with no payload, for C9. -/
def c9Layer : OverlayLayer ℚ :=
  { space := TrackingUniverseOrigin.Standing
    subSwapchain := 0
    subRect := demoRect
    inner := LayerInner.Quad (defaultPose ℚ) 1 1
    colorBias := none }

/-- Counterexample for C9 as frozen: in release mode (debug assertions off)
the second set_alpha on the same layer succeeds (no conflict error) and
silently overwrites the first payload (1/2 becomes 1/4). -/
theorem c9_counterexample :
    c9Layer.set_alpha false (1 / 2 : ℚ) =
      Except.ok { c9Layer with colorBias := some (1 / 2) } ∧
    ({ c9Layer with colorBias := some (1 / 2 : ℚ) }).set_alpha false (1 / 4) =
      Except.ok { c9Layer with colorBias := some (1 / 4) } ∧
    some (1 / 4 : ℚ) ≠ some (1 / 2 : ℚ) :=
  ⟨rfl, rfl, by norm_num⟩

/-- Witness for C9 (amended) on a layer that already carries a payload. -/
theorem c9_witness :
    ({ c9Layer with colorBias := some (1 / 2 : ℚ) }).colorBias.isSome = true ∧
    (({ c9Layer with colorBias := some (1 / 2 : ℚ) }).set_alpha true (1 / 4) =
      Except.error setAlphaTwiceMsg ∧
    ({ c9Layer with colorBias := some (1 / 2 : ℚ) }).set_alpha false (1 / 4) =
      Except.ok { { c9Layer with colorBias := some (1 / 2 : ℚ) } with
        colorBias := some (1 / 4) }) :=
  ⟨rfl, c9_set_alpha_second_attach { c9Layer with colorBias := some (1 / 2 : ℚ) }
    (1 / 4) rfl⟩

/-- Decides whether a built layer is a cylinder layer. -/
def isCylinder {K : Type} (l : OverlayLayer K) : Bool :=
  match l.inner with
  | LayerInner.Cylinder _ _ _ _ => true
  | _ => false

/-- A visible overlay with a resolved rect at z-order 0, for C5. -/
def c5Base : Overlay ℚ := demoOverlayZ "cv" 0

/-- The store holding only the C5 overlay at handle 0. -/
def c5St : OverlayMan ℚ :=
  { nextKey := 1, overlays := [(0, c5Base)], key_to_overlay := [("cv", 0)], skybox := [] }

/-- C5 (evaluation at the failing input): SetOverlayCurvature clamps as the
claim says (2 becomes 1, -1 becomes 0), but a stored curvature of 0 (the
clamp of any non-positive value, reachable by SetOverlayCurvature(h, 0)) is
kept as Curved 0, and layer construction still builds a cylinder layer for
it, with radius computed as width divided by (2 * pi * 0) - it is not
treated as a non-curved flat quad. -/
theorem c5_curvature_zero_layer_eval :
    tableLookup (SetOverlayCurvature true c5St 0 (2 : ℚ)).1 0 =
      some { c5Base with kind := OverlayKind.Curved 1 } ∧
    tableLookup (SetOverlayCurvature true c5St 0 (-1 : ℚ)).1 0 =
      some { c5Base with kind := OverlayKind.Curved 0 } ∧
    tableLookup (SetOverlayCurvature true c5St 0 (0 : ℚ)).1 0 =
      some { c5Base with kind := OverlayKind.Curved 0 } ∧
    isCylinder (mkLayer testConsts TrackingUniverseOrigin.Standing 0
      { c5Base with kind := OverlayKind.Curved 0 } demoRect) = true :=
  ⟨by decide, by decide, by decide, rfl⟩

/-- The invariant carried through create/destroy sequences: wellformedness
of the slotmap model plus mutual consistency of table and index. -/
def Inv {K : Type} (st : OverlayMan K) : Prop := WfMan st ∧ Consistent st

theorem inv_new (K : Type) : Inv (OverlayMan.new K) := by
  refine ⟨⟨?_, ?_, ?_⟩, ?_, ?_⟩ <;> simp [OverlayMan.new, tableLookup, List.lookup]

theorem create_preserves {K : Type} [LinearOrderedField K] (st : OverlayMan K)
    (k n : String) (hinv : Inv st) (hfresh : keyFresh st k = true) :
    Inv (CreateOverlay st k n).1 := by
  obtain ⟨⟨hbound, hpw, hpwi⟩, hc1, hc2⟩ := hinv
  have hfresh2 : ∀ e ∈ st.overlays, e.2.key ≠ k := by
    intro e he
    have := List.all_eq_true.mp hfresh e he
    simpa using this
  have hovN : st.overlays.lookup st.nextKey = none :=
    lookup_eq_none_of_all (fun e he => Nat.ne_of_lt (hbound e he))
  constructor
  · refine ⟨?_, ?_, ?_⟩
    · intro e he
      rcases List.mem_append.mp he with h1 | h1
      · exact Nat.lt_succ_of_lt (hbound e h1)
      · rcases List.mem_singleton.mp h1 with rfl
        exact Nat.lt_succ_self _
    · refine List.pairwise_append.mpr ⟨hpw, List.pairwise_singleton _ _, ?_⟩
      intro a ha b hb
      rcases List.mem_singleton.mp hb with rfl
      exact Nat.ne_of_lt (hbound a ha)
    · refine List.Pairwise.cons ?_ (hpwi.sublist (List.filter_sublist _))
      intro e he
      have := (List.mem_filter.mp he).2
      have h2 : e.1 ≠ k := by simpa using this
      exact fun hke => h2 (hke.symm)
  constructor
  · intro k0 h0 hl
    rw [show (CreateOverlay st k n).1.key_to_overlay =
      (k, st.nextKey) :: st.key_to_overlay.filter (fun e => e.1 ≠ k) from rfl,
      lookup_cons] at hl
    cases hk0 : k0 == k with
    | true =>
        rw [hk0, cond_true] at hl
        cases hl
        have hk0e : k0 = k := eq_of_beq hk0
        refine ⟨Overlay.new k n, ?_, by simp [Overlay.new, hk0e]⟩
        show (st.overlays ++ [(st.nextKey, Overlay.new k n)]).lookup st.nextKey = _
        rw [lookup_append, hovN, lookup_cons, beq_self_eq_true]
        rfl
    | false =>
        rw [hk0, cond_false] at hl
        have hk0e : k0 ≠ k := by simpa using (beq_eq_false_iff_ne.mp hk0)
        rw [lookup_filter_ne _ hk0e] at hl
        obtain ⟨o0, ho0, hkey⟩ := hc1 k0 h0 hl
        refine ⟨o0, ?_, hkey⟩
        show (st.overlays ++ [(st.nextKey, Overlay.new k n)]).lookup h0 = _
        rw [lookup_append]
        rw [show st.overlays.lookup h0 = some o0 from ho0]
  · intro h0 o0 hl
    rw [show tableLookup (CreateOverlay st k n).1 h0 =
      (st.overlays ++ [(st.nextKey, Overlay.new k n)]).lookup h0 from rfl,
      lookup_append] at hl
    cases hov : st.overlays.lookup h0 with
    | some o1 =>
        rw [hov] at hl
        cases hl
        have hmem := mem_of_lookup_eq_some hov
        have hknk : o0.key ≠ k := hfresh2 (h0, o0) hmem
        show ((k, st.nextKey) :: st.key_to_overlay.filter (fun e => e.1 ≠ k)).lookup
          o0.key = some h0
        rw [lookup_cons, beq_eq_false_iff_ne.mpr hknk, cond_false,
          lookup_filter_ne _ hknk]
        exact hc2 h0 o0 hov
    | none =>
        rw [hov] at hl
        rw [lookup_cons] at hl
        cases hh0 : h0 == st.nextKey with
        | true =>
            rw [hh0, cond_true] at hl
            cases hl
            have hh0e : h0 = st.nextKey := eq_of_beq hh0
            show ((k, st.nextKey) :: _).lookup (Overlay.new (K := K) k n).key = some h0
            rw [show (Overlay.new (K := K) k n).key = k from rfl, lookup_cons,
              beq_self_eq_true, cond_true, hh0e]
        | false =>
            rw [hh0, cond_false] at hl
            cases hl

theorem destroy_preserves {K : Type} (st : OverlayMan K) (h : Nat)
    (hinv : Inv st) : Inv (DestroyOverlay st h).1 := by
  obtain ⟨⟨hbound, hpw, hpwi⟩, hc1, hc2⟩ := hinv
  cases hl : tableLookup st h with
  | none =>
      rw [destroy_not_registered st h hl]
      exact ⟨⟨hbound, hpw, hpwi⟩, hc1, hc2⟩
  | some o =>
      have hl2 : st.overlays.lookup h = some o := hl
      have hdest : (DestroyOverlay st h).1 =
          { st with
              overlays := st.overlays.filter (fun e => e.1 ≠ h)
              key_to_overlay := st.key_to_overlay.filter (fun e => e.1 ≠ o.key) } := by
        simp [DestroyOverlay, tableLookup, hl2]
      rw [hdest]
      refine ⟨⟨?_, hpw.sublist (List.filter_sublist _),
        hpwi.sublist (List.filter_sublist _)⟩, ?_, ?_⟩
      · intro e he
        exact hbound e (List.mem_of_mem_filter he)
      · intro k0 h0 hlk
        have hk0 : k0 ≠ o.key := by
          intro hk
          rw [hk, lookup_filter_self] at hlk
          cases hlk
        rw [show ({ st with
            overlays := st.overlays.filter (fun e => e.1 ≠ h),
            key_to_overlay := st.key_to_overlay.filter (fun e => e.1 ≠ o.key) } :
          OverlayMan K).key_to_overlay =
            st.key_to_overlay.filter (fun e => e.1 ≠ o.key) from rfl,
          lookup_filter_ne _ hk0] at hlk
        obtain ⟨o0, ho0, hkey⟩ := hc1 k0 h0 hlk
        have hh0 : h0 ≠ h := by
          intro hh
          rw [hh] at ho0
          have ho0e : st.overlays.lookup h = some o0 := ho0
          rw [hl2] at ho0e
          cases ho0e
          exact hk0 hkey.symm
        refine ⟨o0, ?_, hkey⟩
        show (st.overlays.filter (fun e => e.1 ≠ h)).lookup h0 = some o0
        rw [lookup_filter_ne _ hh0]
        exact ho0
      · intro h0 o0 hlk
        have hh0 : h0 ≠ h := by
          intro hh
          rw [show tableLookup ({ st with
              overlays := st.overlays.filter (fun e => e.1 ≠ h),
              key_to_overlay := st.key_to_overlay.filter (fun e => e.1 ≠ o.key) } :
            OverlayMan K) h0 =
              (st.overlays.filter (fun e => e.1 ≠ h)).lookup h0 from rfl, hh,
            lookup_filter_self] at hlk
          cases hlk
        rw [show tableLookup ({ st with
            overlays := st.overlays.filter (fun e => e.1 ≠ h),
            key_to_overlay := st.key_to_overlay.filter (fun e => e.1 ≠ o.key) } :
          OverlayMan K) h0 =
            (st.overlays.filter (fun e => e.1 ≠ h)).lookup h0 from rfl,
          lookup_filter_ne _ hh0] at hlk
        have hold := hc2 h0 o0 hlk
        have hko : o0.key ≠ o.key := by
          intro hk
          rw [hk] at hold
          have := hc2 h o hl
          rw [hold] at this
          cases this
          exact hh0 rfl
        show (st.key_to_overlay.filter (fun e => e.1 ≠ o.key)).lookup o0.key = some h0
        rw [lookup_filter_ne _ hko]
        exact hold

theorem exec_preserves {K : Type} [LinearOrderedField K] :
    ∀ (ops : List OvOp) (st : OverlayMan K), Inv st → contractOK st ops = true →
      Inv (execOps st ops)
  | [], _, hinv, _ => hinv
  | OvOp.create k n :: rest, st, hinv, hok => by
      rw [contractOK, Bool.and_eq_true] at hok
      exact exec_preserves rest _
        (create_preserves st k n hinv hok.1) hok.2
  | OvOp.destroy h :: rest, st, hinv, hok => by
      rw [contractOK] at hok
      exact exec_preserves rest _ (destroy_preserves st h hinv) hok

/-- C2: for call sequences of CreateOverlay and DestroyOverlay that respect
the caller contract that a created key is unique among live overlays, the
key-to-handle index and the handle-to-overlay table stay mutually consistent
(every index key maps to a registered overlay carrying it, every live
overlay's key maps back to its handle, keys are unique among live overlays),
and destroying a registered handle removes both the table entry and the
index entry for that overlay's key. -/
theorem c2_index_table_consistent {K : Type} [LinearOrderedField K] :
    (∀ ops : List OvOp, contractOK (OverlayMan.new K) ops = true →
      Consistent (execOps (OverlayMan.new K) ops) ∧
      ∀ (h1 h2 : Nat) (o1 o2 : Overlay K),
        tableLookup (execOps (OverlayMan.new K) ops) h1 = some o1 →
        tableLookup (execOps (OverlayMan.new K) ops) h2 = some o2 →
        o1.key = o2.key → h1 = h2) ∧
    (∀ (st : OverlayMan K) (h : Nat) (o : Overlay K), tableLookup st h = some o →
      tableLookup (DestroyOverlay st h).1 h = none ∧
      (DestroyOverlay st h).1.key_to_overlay.lookup o.key = none) := by
  constructor
  · intro ops hok
    have hinv := exec_preserves ops (OverlayMan.new K) (inv_new K) hok
    refine ⟨hinv.2, ?_⟩
    intro h1 h2 o1 o2 hl1 hl2 hkey
    have e1 := hinv.2.2 h1 o1 hl1
    have e2 := hinv.2.2 h2 o2 hl2
    rw [hkey] at e1
    rw [e1] at e2
    cases e2
    rfl
  · intro st h o hl
    have hl2 : st.overlays.lookup h = some o := hl
    refine ⟨tableLookup_destroy_self st h, ?_⟩
    show ((DestroyOverlay st h).1.key_to_overlay).lookup o.key = none
    have hdest : (DestroyOverlay st h).1.key_to_overlay =
        st.key_to_overlay.filter (fun e => e.1 ≠ o.key) := by
      simp [DestroyOverlay, tableLookup, hl2]
    rw [hdest]
    exact lookup_filter_self _ _

/-- A call sequence exercising creation, destruction and key reuse after
destruction, for the C2 witness. -/
def demoOps : List OvOp :=
  [OvOp.create "a" "x", OvOp.create "b" "y", OvOp.destroy 0, OvOp.create "a" "z"]

/-- Witness for C2 on a concrete call sequence and a concrete destroy. -/
theorem c2_witness :
    (contractOK (OverlayMan.new ℚ) demoOps = true ∧
      Consistent (execOps (OverlayMan.new ℚ) demoOps)) ∧
    (tableLookup demoSt 0 = some (demoOverlayZ "a" 5) ∧
      tableLookup (DestroyOverlay demoSt 0).1 0 = none ∧
      (DestroyOverlay demoSt 0).1.key_to_overlay.lookup (demoOverlayZ "a" 5).key =
        none) :=
  ⟨⟨by decide, ((c2_index_table_consistent (K := ℚ)).1 demoOps (by decide)).1⟩,
   rfl, (c2_index_table_consistent (K := ℚ)).2 demoSt 0 (demoOverlayZ "a" 5) rfl⟩

/-- The overlay record of skybox cube face idx after a 6-texture SetSkybox:
internally owned (key and name carry the skybox prefix), visible, width
twice the 500 skybox distance, Quad kind, sentinel z-order -1, the fixed
cube-face pose relative to the Standing origin, bound to the submitted
texture's backend with the texture's extent as resolved rect. -/
def skyFace {K : Type} [LinearOrderedField K] (api : GraphicsApi)
    (idx : Nat) (ext : Extent2Di) (pose : Posef K) : Overlay K :=
  { key := skyboxKeyName ++ "_" ++ toString idx
    name := skyboxKeyName ++ "_" ++ toString idx
    alpha := none
    width := (500 : K) * 2
    visible := true
    kind := OverlayKind.Quad
    z_order := -1
    bounds := { uMin := 0, vMin := 0, uMax := 1, vMax := 1 }
    transform := some (TrackingUniverseOrigin.Standing, pose)
    compositor := some api
    rect := some { extent := ext, offsetX := 0, offsetY := 0 } }

theorem add_skybox_faces_step {K : Type} [LinearOrderedField K] (C : RtConsts K)
    (idx : Nat) (t : Texture K) (rest : List (Texture K)) (st : OverlayMan K)
    (api : GraphicsApi) (m : List (Nat × Extent2Di))
    (origin : TrackingUniverseOrigin)
    (hapi : t.api = api)
    (hlf : m.lookup st.nextKey = none) :
    add_skybox_faces C idx (t :: rest) st
      { swapchains := some (api, m), currentOrigin := origin } =
      add_skybox_faces C (idx + 1) rest
        { st with
            nextKey := st.nextKey + 1
            overlays := st.overlays ++
              [(st.nextKey, skyFace api idx t.extent
                ((QUAD_POSES C).getD idx (defaultPose K)))]
            skybox := st.skybox ++ [st.nextKey] }
        { swapchains := some (api, m ++ [(st.nextKey, t.extent)]),
          currentOrigin := origin } := by
  simp only [add_skybox_faces, Overlay.set_texture, Overlay.new, SupportedBackend_new,
    assocInsert, Option.getD_some, hapi, hlf, skyFace, SKYBOX_SIZE,
    SKYBOX_Z_ORDER, ne_eq]
  simp

theorem add_skybox_faces_start {K : Type} [LinearOrderedField K] (C : RtConsts K)
    (idx : Nat) (t : Texture K) (rest : List (Texture K)) (st : OverlayMan K)
    (api : GraphicsApi) (origin : TrackingUniverseOrigin)
    (hapi : t.api = api) :
    add_skybox_faces C idx (t :: rest) st
      { swapchains := none, currentOrigin := origin } =
      add_skybox_faces C (idx + 1) rest
        { st with
            nextKey := st.nextKey + 1
            overlays := st.overlays ++
              [(st.nextKey, skyFace api idx t.extent
                ((QUAD_POSES C).getD idx (defaultPose K)))]
            skybox := st.skybox ++ [st.nextKey] }
        { swapchains := some (api, [(st.nextKey, t.extent)]),
          currentOrigin := origin } := by
  simp only [add_skybox_faces, Overlay.set_texture, Overlay.new, SupportedBackend_new,
    assocInsert, Option.getD_none, hapi, skyFace, SKYBOX_SIZE,
    SKYBOX_Z_ORDER, ne_eq, List.lookup]
  simp

/-- C4: a SetSkybox call with exactly 6 textures (of one backend API, in a
session whose swapchain map is not yet created) first destroys any previous
skybox set, then creates exactly 6 internally-owned Quad overlays, each
visible, each of width twice the 500 skybox distance constant, each at the
sentinel z-order -1, each at its fixed cube-face pose (position offset of
plus or minus 500 along one axis, the fixed axis-aligned facing orientation
per face, the diagonal components being 1/sqrt 2); a subsequent ClearSkybox
destroys every overlay of the skybox set, leaving zero skybox overlays. -/
theorem c4_set_skybox_six_faces {K : Type} [LinearOrderedField K] (C : RtConsts K)
    (st : OverlayMan K) (sess : Session K) (api : GraphicsApi)
    (e0 e1 e2 e3 e4 e5 : Extent2Di)
    (hsw : sess.swapchains = none)
    (hbound : ∀ e ∈ st.overlays, e.1 < st.nextKey) :
    ∃ st2 sess2,
      st.set_skybox C sess
        [{ api := api, extent := e0 }, { api := api, extent := e1 },
         { api := api, extent := e2 }, { api := api, extent := e3 },
         { api := api, extent := e4 }, { api := api, extent := e5 }] =
        Except.ok (st2, sess2) ∧
      st2 =
        { nextKey := st.nextKey + 6
          overlays :=
            st.overlays.filter (fun e => !(st.skybox.contains e.1)) ++
              [(st.nextKey, skyFace api 0 e0
                  { position := { x := 0, y := 0, z := -(500 : K) },
                    orientation := { x := 0, y := 0, z := 1, w := 0 } }),
               (st.nextKey + 1, skyFace api 1 e1
                  { position := { x := 0, y := 0, z := (500 : K) },
                    orientation := { x := 1, y := 0, z := 0, w := 0 } }),
               (st.nextKey + 2, skyFace api 2 e2
                  { position := { x := -(500 : K), y := 0, z := 0 },
                    orientation := { x := C.invSqrt2, y := 0, z := C.invSqrt2, w := 0 } }),
               (st.nextKey + 3, skyFace api 3 e3
                  { position := { x := (500 : K), y := 0, z := 0 },
                    orientation := { x := -C.invSqrt2, y := 0, z := C.invSqrt2, w := 0 } }),
               (st.nextKey + 4, skyFace api 4 e4
                  { position := { x := 0, y := (500 : K), z := 0 },
                    orientation := { x := 0, y := -C.invSqrt2, z := C.invSqrt2, w := 0 } }),
               (st.nextKey + 5, skyFace api 5 e5
                  { position := { x := 0, y := -(500 : K), z := 0 },
                    orientation := { x := 0, y := C.invSqrt2, z := C.invSqrt2, w := 0 } })]
          key_to_overlay := st.key_to_overlay
          skybox := [st.nextKey, st.nextKey + 1, st.nextKey + 2, st.nextKey + 3,
            st.nextKey + 4, st.nextKey + 5] } ∧
      st2.clear_skybox.skybox = [] ∧
      st2.clear_skybox.overlays =
        st.overlays.filter (fun e => !(st.skybox.contains e.1)) := by
  obtain ⟨sw, origin⟩ := sess
  replace hsw : sw = none := hsw
  subst hsw
  have f1 : ((st.nextKey + 1) == st.nextKey) = false :=
    beq_eq_false_iff_ne.mpr (by omega)
  have f2 : ((st.nextKey + 2) == st.nextKey) = false :=
    beq_eq_false_iff_ne.mpr (by omega)
  have f3 : ((st.nextKey + 2) == st.nextKey + 1) = false :=
    beq_eq_false_iff_ne.mpr (by omega)
  have f4 : ((st.nextKey + 3) == st.nextKey) = false :=
    beq_eq_false_iff_ne.mpr (by omega)
  have f5 : ((st.nextKey + 3) == st.nextKey + 1) = false :=
    beq_eq_false_iff_ne.mpr (by omega)
  have f6 : ((st.nextKey + 3) == st.nextKey + 2) = false :=
    beq_eq_false_iff_ne.mpr (by omega)
  have f7 : ((st.nextKey + 4) == st.nextKey) = false :=
    beq_eq_false_iff_ne.mpr (by omega)
  have f8 : ((st.nextKey + 4) == st.nextKey + 1) = false :=
    beq_eq_false_iff_ne.mpr (by omega)
  have f9 : ((st.nextKey + 4) == st.nextKey + 2) = false :=
    beq_eq_false_iff_ne.mpr (by omega)
  have f10 : ((st.nextKey + 4) == st.nextKey + 3) = false :=
    beq_eq_false_iff_ne.mpr (by omega)
  have f11 : ((st.nextKey + 5) == st.nextKey) = false :=
    beq_eq_false_iff_ne.mpr (by omega)
  have f12 : ((st.nextKey + 5) == st.nextKey + 1) = false :=
    beq_eq_false_iff_ne.mpr (by omega)
  have f13 : ((st.nextKey + 5) == st.nextKey + 2) = false :=
    beq_eq_false_iff_ne.mpr (by omega)
  have f14 : ((st.nextKey + 5) == st.nextKey + 3) = false :=
    beq_eq_false_iff_ne.mpr (by omega)
  have f15 : ((st.nextKey + 5) == st.nextKey + 4) = false :=
    beq_eq_false_iff_ne.mpr (by omega)
  have hl1 : List.lookup (st.nextKey + 1) [(st.nextKey, e0)] = none := by
    rw [lookup_cons, f1]
    rfl
  have hl2 : List.lookup (st.nextKey + 2)
      [(st.nextKey, e0), (st.nextKey + 1, e1)] = none := by
    rw [lookup_cons, f2, cond_false, lookup_cons, f3]
    rfl
  have hl3 : List.lookup (st.nextKey + 3)
      [(st.nextKey, e0), (st.nextKey + 1, e1), (st.nextKey + 2, e2)] = none := by
    rw [lookup_cons, f4, cond_false, lookup_cons, f5, cond_false, lookup_cons, f6]
    rfl
  have hl4 : List.lookup (st.nextKey + 4)
      [(st.nextKey, e0), (st.nextKey + 1, e1), (st.nextKey + 2, e2),
       (st.nextKey + 3, e3)] = none := by
    rw [lookup_cons, f7, cond_false, lookup_cons, f8, cond_false, lookup_cons, f9,
      cond_false, lookup_cons, f10]
    rfl
  have hl5 : List.lookup (st.nextKey + 5)
      [(st.nextKey, e0), (st.nextKey + 1, e1), (st.nextKey + 2, e2),
       (st.nextKey + 3, e3), (st.nextKey + 4, e4)] = none := by
    rw [lookup_cons, f11, cond_false, lookup_cons, f12, cond_false, lookup_cons,
      f13, cond_false, lookup_cons, f14, cond_false, lookup_cons, f15]
    rfl
  refine ⟨_,
    { swapchains := some (api,
        [(st.nextKey, e0), (st.nextKey + 1, e1), (st.nextKey + 2, e2),
         (st.nextKey + 3, e3), (st.nextKey + 4, e4), (st.nextKey + 5, e5)])
      currentOrigin := origin },
    ?_, rfl, ?_, ?_⟩
  · have hstart : st.set_skybox C
        { swapchains := none, currentOrigin := origin }
        [{ api := api, extent := e0 }, { api := api, extent := e1 },
         { api := api, extent := e2 }, { api := api, extent := e3 },
         { api := api, extent := e4 }, { api := api, extent := e5 }] =
        add_skybox_faces C 0
          [{ api := api, extent := e0 }, { api := api, extent := e1 },
           { api := api, extent := e2 }, { api := api, extent := e3 },
           { api := api, extent := e4 }, { api := api, extent := e5 }]
          st.clear_skybox { swapchains := none, currentOrigin := origin } := by
      simp [OverlayMan.set_skybox]
    rw [hstart]
    rw [show st.clear_skybox =
      { st with
          overlays := st.overlays.filter (fun e => !(st.skybox.contains e.1))
          skybox := ([] : List Nat) } from rfl]
    rw [add_skybox_faces_start C 0 { api := api, extent := e0 }
      [{ api := api, extent := e1 }, { api := api, extent := e2 },
       { api := api, extent := e3 }, { api := api, extent := e4 },
       { api := api, extent := e5 }] _ api origin rfl]
    simp only [List.nil_append, List.cons_append, List.append_assoc,
      List.singleton_append, Nat.add_assoc, Nat.reduceAdd]
    rw [add_skybox_faces_step C 1 { api := api, extent := e1 }
      [{ api := api, extent := e2 }, { api := api, extent := e3 },
       { api := api, extent := e4 }, { api := api, extent := e5 }]
      _ api [(st.nextKey, e0)] origin rfl hl1]
    simp only [List.nil_append, List.cons_append, List.append_assoc,
      List.singleton_append, Nat.add_assoc, Nat.reduceAdd]
    rw [add_skybox_faces_step C 2 { api := api, extent := e2 }
      [{ api := api, extent := e3 }, { api := api, extent := e4 },
       { api := api, extent := e5 }]
      _ api [(st.nextKey, e0), (st.nextKey + 1, e1)] origin rfl hl2]
    simp only [List.nil_append, List.cons_append, List.append_assoc,
      List.singleton_append, Nat.add_assoc, Nat.reduceAdd]
    rw [add_skybox_faces_step C 3 { api := api, extent := e3 }
      [{ api := api, extent := e4 }, { api := api, extent := e5 }]
      _ api [(st.nextKey, e0), (st.nextKey + 1, e1), (st.nextKey + 2, e2)]
      origin rfl hl3]
    simp only [List.nil_append, List.cons_append, List.append_assoc,
      List.singleton_append, Nat.add_assoc, Nat.reduceAdd]
    rw [add_skybox_faces_step C 4 { api := api, extent := e4 }
      [{ api := api, extent := e5 }]
      _ api [(st.nextKey, e0), (st.nextKey + 1, e1), (st.nextKey + 2, e2),
        (st.nextKey + 3, e3)] origin rfl hl4]
    simp only [List.nil_append, List.cons_append, List.append_assoc,
      List.singleton_append, Nat.add_assoc, Nat.reduceAdd]
    rw [add_skybox_faces_step C 5 { api := api, extent := e5 } []
      _ api [(st.nextKey, e0), (st.nextKey + 1, e1), (st.nextKey + 2, e2),
        (st.nextKey + 3, e3), (st.nextKey + 4, e4)] origin rfl hl5]
    simp only [add_skybox_faces, List.nil_append, List.cons_append,
      List.append_assoc, List.singleton_append, Nat.add_assoc, Nat.reduceAdd,
      QUAD_POSES, SKYBOX_SIZE, List.getD_cons_zero, List.getD_cons_succ]
  · rfl
  · rw [OverlayMan.clear_skybox]
    simp only [List.filter_append]
    have h2 : List.filter
        (fun e => !(List.contains [st.nextKey, st.nextKey + 1, st.nextKey + 2,
          st.nextKey + 3, st.nextKey + 4, st.nextKey + 5] e.1))
        [(st.nextKey, skyFace api 0 e0
            { position := { x := 0, y := 0, z := -(500 : K) },
              orientation := { x := 0, y := 0, z := 1, w := 0 } }),
         (st.nextKey + 1, skyFace api 1 e1
            { position := { x := 0, y := 0, z := (500 : K) },
              orientation := { x := 1, y := 0, z := 0, w := 0 } }),
         (st.nextKey + 2, skyFace api 2 e2
            { position := { x := -(500 : K), y := 0, z := 0 },
              orientation := { x := C.invSqrt2, y := 0, z := C.invSqrt2, w := 0 } }),
         (st.nextKey + 3, skyFace api 3 e3
            { position := { x := (500 : K), y := 0, z := 0 },
              orientation := { x := -C.invSqrt2, y := 0, z := C.invSqrt2, w := 0 } }),
         (st.nextKey + 4, skyFace api 4 e4
            { position := { x := 0, y := (500 : K), z := 0 },
              orientation := { x := 0, y := -C.invSqrt2, z := C.invSqrt2, w := 0 } }),
         (st.nextKey + 5, skyFace api 5 e5
            { position := { x := 0, y := -(500 : K), z := 0 },
              orientation := { x := 0, y := C.invSqrt2, z := C.invSqrt2, w := 0 } })] =
        [] := by
      simp
    have h1 : List.filter
        (fun e => !(List.contains [st.nextKey, st.nextKey + 1, st.nextKey + 2,
          st.nextKey + 3, st.nextKey + 4, st.nextKey + 5] e.1))
        (st.overlays.filter (fun e => !(st.skybox.contains e.1))) =
        st.overlays.filter (fun e => !(st.skybox.contains e.1)) := by
      rw [List.filter_eq_self]
      intro e he
      have hlt : e.1 < st.nextKey := hbound e (List.mem_of_mem_filter he)
      have hnm : e.1 ∉ [st.nextKey, st.nextKey + 1, st.nextKey + 2,
          st.nextKey + 3, st.nextKey + 4, st.nextKey + 5] := by
        simp only [List.mem_cons, List.not_mem_nil, or_false]
        omega
      simpa using hnm
    rw [h1, h2, List.append_nil]

/-- Witness for C4: a 6-texture skybox submission from the fresh store in a
fresh Vulkan session. -/
theorem c4_witness :
    (({ swapchains := none, currentOrigin := TrackingUniverseOrigin.Standing } :
        Session ℚ).swapchains = none ∧
      ∀ e ∈ (OverlayMan.new ℚ).overlays, e.1 < (OverlayMan.new ℚ).nextKey) ∧
    ∃ st2 sess2,
      (OverlayMan.new ℚ).set_skybox testConsts
        { swapchains := none, currentOrigin := TrackingUniverseOrigin.Standing }
        [{ api := GraphicsApi.vulkan, extent := { w := 8, h := 8 } },
         { api := GraphicsApi.vulkan, extent := { w := 8, h := 8 } },
         { api := GraphicsApi.vulkan, extent := { w := 8, h := 8 } },
         { api := GraphicsApi.vulkan, extent := { w := 8, h := 8 } },
         { api := GraphicsApi.vulkan, extent := { w := 8, h := 8 } },
         { api := GraphicsApi.vulkan, extent := { w := 8, h := 8 } }] =
        Except.ok (st2, sess2) ∧
      st2 =
        { nextKey := (OverlayMan.new ℚ).nextKey + 6
          overlays :=
            (OverlayMan.new ℚ).overlays.filter
                (fun e => !((OverlayMan.new ℚ).skybox.contains e.1)) ++
              [((OverlayMan.new ℚ).nextKey, skyFace GraphicsApi.vulkan 0
                  { w := 8, h := 8 }
                  { position := { x := 0, y := 0, z := -(500 : ℚ) },
                    orientation := { x := 0, y := 0, z := 1, w := 0 } }),
               ((OverlayMan.new ℚ).nextKey + 1, skyFace GraphicsApi.vulkan 1
                  { w := 8, h := 8 }
                  { position := { x := 0, y := 0, z := (500 : ℚ) },
                    orientation := { x := 1, y := 0, z := 0, w := 0 } }),
               ((OverlayMan.new ℚ).nextKey + 2, skyFace GraphicsApi.vulkan 2
                  { w := 8, h := 8 }
                  { position := { x := -(500 : ℚ), y := 0, z := 0 },
                    orientation := { x := testConsts.invSqrt2, y := 0, z := testConsts.invSqrt2, w := 0 } }),
               ((OverlayMan.new ℚ).nextKey + 3, skyFace GraphicsApi.vulkan 3
                  { w := 8, h := 8 }
                  { position := { x := (500 : ℚ), y := 0, z := 0 },
                    orientation := { x := -testConsts.invSqrt2, y := 0, z := testConsts.invSqrt2, w := 0 } }),
               ((OverlayMan.new ℚ).nextKey + 4, skyFace GraphicsApi.vulkan 4
                  { w := 8, h := 8 }
                  { position := { x := 0, y := (500 : ℚ), z := 0 },
                    orientation := { x := 0, y := -testConsts.invSqrt2, z := testConsts.invSqrt2, w := 0 } }),
               ((OverlayMan.new ℚ).nextKey + 5, skyFace GraphicsApi.vulkan 5
                  { w := 8, h := 8 }
                  { position := { x := 0, y := -(500 : ℚ), z := 0 },
                    orientation := { x := 0, y := testConsts.invSqrt2, z := testConsts.invSqrt2, w := 0 } })]
          key_to_overlay := (OverlayMan.new ℚ).key_to_overlay
          skybox := [(OverlayMan.new ℚ).nextKey, (OverlayMan.new ℚ).nextKey + 1,
            (OverlayMan.new ℚ).nextKey + 2, (OverlayMan.new ℚ).nextKey + 3,
            (OverlayMan.new ℚ).nextKey + 4, (OverlayMan.new ℚ).nextKey + 5] } ∧
      st2.clear_skybox.skybox = [] ∧
      st2.clear_skybox.overlays =
        (OverlayMan.new ℚ).overlays.filter
          (fun e => !((OverlayMan.new ℚ).skybox.contains e.1)) :=
  ⟨⟨rfl, by simp [OverlayMan.new]⟩,
   c4_set_skybox_six_faces testConsts (OverlayMan.new ℚ)
     { swapchains := none, currentOrigin := TrackingUniverseOrigin.Standing }
     GraphicsApi.vulkan { w := 8, h := 8 } { w := 8, h := 8 } { w := 8, h := 8 }
     { w := 8, h := 8 } { w := 8, h := 8 } { w := 8, h := 8 } rfl
     (by simp [OverlayMan.new])⟩

end Xrizer
